import Mathlib

/-!
Shallow embedding of the Network-Mount-Monitoring project.

The program watches NetworkManager D-Bus signals and the kernel journal and
reacts by stopping or restarting a configured set of systemd mount/automount
units.  We embed the three decision components:

* `MountControl.restart_all_mounts` / `MountControl.stop_mounts`
  (mount_control.py) as functions from a status oracle (the point-in-time
  `ActiveState` snapshots systemd would return) to the ordered trace of unit
  operations issued;
* `DbusMonitoring.device_state_changed` / `DbusMonitoring.global_state_changed`
  (dbus_monitoring.py) as state-transition functions on the monitor's
  mutable fields (`device_list`, `current_global_state`), returning the
  recovery handler invocations they perform;
* the journal drain loop of `JournalctlMonitoring.start`
  (journal_monitoring.py) as a function from a batch of journal MESSAGE
  strings to the list of stop-handler invocations.

Python strings are modelled as Lean `String`; `str.startswith` is list
prefix on the character data and the `in` substring test is list infix.
-/

namespace NMM

/-- Python `str.startswith`: character-level prefix test. -/
def strStartsWith (s p : String) : Bool := p.toList.isPrefixOf s.toList

/-- Python `sub in s`: contiguous-substring test on the character data. -/
def strContainsSub (s sub : String) : Bool := decide (List.IsInfix sub.toList s.toList)

/-- Python `str.split(sep)` for a one-character separator. -/
def splitOnChar (sep : Char) : List Char → List (List Char)
  | [] => [[]]
  | c :: rest =>
    let r := splitOnChar sep rest
    if c = sep then [] :: r
    else
      match r with
      | [] => [[c]]
      | h :: t => (c :: h) :: t

/-! ## mount_control.py: `MountControl` -/

/-- One remote call issued to the systemd manager interface.  `status` is the
read-only `get_unit_status` query; the other three are the mutating calls
`call_reset_failed_unit`, `call_stop_unit(name, "replace")`,
`call_start_unit(name, "replace")`. -/
inductive UnitOp where
  | status (unit : String)
  | resetFailed (unit : String)
  | stop (unit : String)
  | start (unit : String)
deriving DecidableEq

/-- Snapshot returned by `get_unit_status`: the `ActiveState` and `SubState`
property values of a unit. -/
structure UnitStatus where
  active_state : String
  sub_state : String

/-- The per-mount loop of `restart_all_mounts`: for each configured name, in
list order, query `<name>.mount` (resetting it when failed), query
`<name>.automount`, and append the name to `automount_to_restart` when the
automount is not active.  Returns the issued operations and the collected
`automount_to_restart` list.  `σ` is the status oracle: statuses are fetched
on demand, never cached, so a pure snapshot function models the remote
property reads of one invocation. -/
def restart_phase1 (σ : String → UnitStatus) : List String → List UnitOp × List String
  | [] => ([], [])
  | name :: rest =>
    let ops1 := [UnitOp.status (name ++ ".mount")]
      ++ (if (σ (name ++ ".mount")).active_state = "failed"
          then [UnitOp.resetFailed (name ++ ".mount")] else [])
      ++ [UnitOp.status (name ++ ".automount")]
    let need := (σ (name ++ ".automount")).active_state ≠ "active"
    let r := restart_phase1 σ rest
    (ops1 ++ r.1, (if need then [name] else []) ++ r.2)

/-- The restart loop of `restart_all_mounts`: for each collected name,
`reset_failed(<name>.automount)` then `start_unit(<name>.automount)`. -/
def restart_phase2 : List String → List UnitOp
  | [] => []
  | name :: rest =>
    UnitOp.resetFailed (name ++ ".automount") :: UnitOp.start (name ++ ".automount")
      :: restart_phase2 rest

/-- `MountControl.restart_all_mounts`, as the ordered trace of unit operations
it issues when every remote call returns normally: the per-mount loop, then —
only when `automount_to_restart` is nonempty — one stop of
`network-online.target`, one stop of `NetworkManager-wait-online.service`, and
the reset/start pairs. -/
def restart_all_mounts (σ : String → UnitStatus) (list_of_mount : List String) : List UnitOp :=
  let p := restart_phase1 σ list_of_mount
  p.1 ++ (if p.2 = [] then []
    else UnitOp.stop "network-online.target"
      :: UnitOp.stop "NetworkManager-wait-online.service"
      :: restart_phase2 p.2)

/-- `MountControl.stop_mounts`: `for name in list_of_mount: await
self.stop_unit(f"{name}.mount")`.  The body has no exception handler, so a
raising stop call propagates and ends the loop: `res` gives each stop call's
outcome, and the result is the trace of attempted stop operations together
with the escaped exception, if any. -/
def stop_mounts (res : String → Except String Unit) : List String → List UnitOp × Option String
  | [] => ([], none)
  | name :: rest =>
    match res (name ++ ".mount") with
    | Except.ok _ =>
      let r := stop_mounts res rest
      (UnitOp.stop (name ++ ".mount") :: r.1, r.2)
    | Except.error e => ([UnitOp.stop (name ++ ".mount")], some e)

/-! ## dbus_monitoring.py: `DbusMonitoring` -/

/-- `dbus_next.constants.MessageType`, restricted to the variants the handler
distinguishes. -/
inductive MessageType where
  | methodCall
  | methodReturn
  | error
  | signal
deriving DecidableEq

/-- A D-Bus message as `device_state_changed` reads it: its type, interface,
object path, and body.  `StateChanged` device signals carry
`(new_state, old_state, reason)` as unsigned integers; the handler reads only
`message.body[0]`. -/
structure DMessage where
  message_type : MessageType
  interface : String
  path : String
  body : List Nat
deriving DecidableEq

/-- `sdbus_async.networkmanager.enums.NetworkManagerState` (NM_STATE_*). -/
inductive NetworkManagerState where
  | UNKNOWN
  | ASLEEP
  | DISCONNECTED
  | DISCONNECTING
  | CONNECTING
  | CONNECTED_LOCAL
  | CONNECTED_SITE
  | GLOBAL
deriving DecidableEq

/-- The integer-enum conversion `NetworkManagerState(state)`: `none` models
the `ValueError` Python raises for a value that is no member. -/
def NetworkManagerState.ofNat? : Nat → Option NetworkManagerState
  | 0 => some NetworkManagerState.UNKNOWN
  | 10 => some NetworkManagerState.ASLEEP
  | 20 => some NetworkManagerState.DISCONNECTED
  | 30 => some NetworkManagerState.DISCONNECTING
  | 40 => some NetworkManagerState.CONNECTING
  | 50 => some NetworkManagerState.CONNECTED_LOCAL
  | 60 => some NetworkManagerState.CONNECTED_SITE
  | 70 => some NetworkManagerState.GLOBAL
  | _ => none

/-- `DbusMonitoring.DEVICE_ONLINE_STATE = [DeviceState.ACTIVATED,
DeviceState.IP_CHECK, DeviceState.SECONDARIES]`; the signal body holds the
raw integers, and membership compares by integer value (100, 80, 90). -/
def DEVICE_ONLINE_STATE : List Nat := [100, 80, 90]

/-- `DbusMonitoring.GLOBAL_ONLINE_STATE`. -/
def GLOBAL_ONLINE_STATE : List NetworkManagerState :=
  [NetworkManagerState.CONNECTED_LOCAL, NetworkManagerState.CONNECTED_SITE,
   NetworkManagerState.GLOBAL]

/-- A recovery-handler invocation: `stop_handler()` is `stop_mounts`,
`restart_handler()` is `restart_all_mounts` (wired in `__main__.main`). -/
inductive RecoveryCall where
  | stopAll
  | restartAll
deriving DecidableEq

/-- Lookup in the `device_list` dict. -/
def lookupDev : List (String × Bool) → String → Option Bool
  | [], _ => none
  | (k, v) :: rest, id => if k = id then some v else lookupDev rest id

/-- Assignment `device_list[id] = v` on the dict, keeping keys unique. -/
def setDev : List (String × Bool) → String → Bool → List (String × Bool)
  | [], id, v => [(id, v)]
  | (k, w) :: rest, id, v =>
    if k = id then (k, v) :: rest else (k, w) :: setDev rest id v

/-- `DbusMonitoring.get_device_id`: `message.path.split("/")[-1]`. -/
def get_device_id (msg : DMessage) : String :=
  String.mk ((splitOnChar '/' msg.path.toList).getLastD [])

/-- The guard of `device_state_changed`: the message is a signal on the
NetworkManager device interface. -/
def is_device_signal (msg : DMessage) : Prop :=
  msg.message_type = MessageType.signal
    ∧ msg.interface = "org.freedesktop.NetworkManager.Device"

instance (msg : DMessage) : Decidable (is_device_signal msg) := by
  unfold is_device_signal; infer_instance

/-- The derived per-device boolean
`device_state = message.body[0] in self.DEVICE_ONLINE_STATE`. -/
def device_online (msg : DMessage) : Bool :=
  DEVICE_ONLINE_STATE.contains (msg.body.headD 0)

/-- `DbusMonitoring.device_state_changed` on the monitor's `device_list`
field.  Returns the new `device_list`, `some id` when the handler scheduled a
`restart_handler()` task for device `id` (it does so exactly when the derived
online boolean changed and is true), and the handler's return value, which is
always `False`. -/
def device_state_changed (st : List (String × Bool)) (msg : DMessage) :
    List (String × Bool) × Option String × Bool :=
  if is_device_signal msg then
    let device_id := get_device_id msg
    let device_state := device_online msg
    if lookupDev st device_id ≠ some device_state then
      (setDev st device_id device_state,
       if device_state then some device_id else none,
       false)
    else (st, none, false)
  else (st, none, false)

/-- Sequential delivery of messages to `device_state_changed`, collecting the
device ids for which a restart task was scheduled, in order. -/
def run_devices (st : List (String × Bool)) : List DMessage → List (String × Bool) × List String
  | [] => (st, [])
  | m :: rest =>
    let s := device_state_changed st m
    let r := run_devices s.1 rest
    (r.1, s.2.1.toList ++ r.2)

/-- The derived online/offline booleans of the device signals addressed to
device `id`, in delivery order. -/
def device_derived (id : String) : List DMessage → List Bool
  | [] => []
  | m :: rest =>
    if is_device_signal m ∧ get_device_id m = id then
      device_online m :: device_derived id rest
    else device_derived id rest

/-- Rising (to-online) edges of a boolean observation sequence against a last
recorded value (`none` = device not yet seen): an edge is an observation that
differs from the recorded value and is `true`. -/
def rise_edges : Option Bool → List Bool → Nat
  | _, [] => 0
  | st, d :: ds => (if st ≠ some d ∧ d = true then 1 else 0) + rise_edges (some d) ds

/-- The derived global boolean `network_state in self.GLOBAL_ONLINE_STATE`. -/
def global_online (ns : NetworkManagerState) : Bool :=
  GLOBAL_ONLINE_STATE.contains ns

/-- `DbusMonitoring.global_state_changed` on the monitor's
`current_global_state` field (`none` = the initial `None`).  `Except.error`
models the uncaught `ValueError` of `NetworkManagerState(state)` on an
unknown value, which escapes the handler before any field update; otherwise
the result is the new `current_global_state` and the recovery calls awaited
(a `stop_handler()` exactly when the derived boolean changed and is false). -/
def global_state_changed (st : Option Bool) (state : Nat) :
    Except Unit (Option Bool × List RecoveryCall) :=
  match NetworkManagerState.ofNat? state with
  | none => Except.error ()
  | some network_state =>
    let online := global_online network_state
    if st ≠ some online then
      Except.ok (some online, if online then [] else [RecoveryCall.stopAll])
    else Except.ok (st, [])

/-- Sequential delivery of global-state signals.  Each callback invocation is
an independent task: one that raises leaves `current_global_state` untouched
and the next signals are still delivered. -/
def run_global (st : Option Bool) : List Nat → Option Bool × List RecoveryCall
  | [] => (st, [])
  | s :: rest =>
    match global_state_changed st s with
    | Except.error _ => run_global st rest
    | Except.ok p =>
      let r := run_global p.1 rest
      (r.1, p.2 ++ r.2)

/-- The derived online booleans of the signals whose value is a valid
`NetworkManagerState`, in delivery order. -/
def global_derived : List Nat → List Bool
  | [] => []
  | s :: rest =>
    match NetworkManagerState.ofNat? s with
    | none => global_derived rest
    | some ns => global_online ns :: global_derived rest

/-- Falling (to-offline) edges of a boolean observation sequence against a
last recorded value (`none` = initial unknown). -/
def fall_edges : Option Bool → List Bool → Nat
  | _, [] => 0
  | st, d :: ds => (if st ≠ some d ∧ d = false then 1 else 0) + fall_edges (some d) ds

/-! ## journal_monitoring.py: `JournalctlMonitoring` -/

/-- The per-entry trigger test of the drain loop:
`entry["MESSAGE"].startswith("CIFS: VFS:") and "has not responded" in
entry["MESSAGE"]`. -/
def stall_signature (msg : String) : Bool :=
  strStartsWith msg "CIFS: VFS:" && strContainsSub msg "has not responded"

/-- One wake of the drain loop of `JournalctlMonitoring.start`: iterate the
newly available entries (their MESSAGE fields) in order and `await
self.stop_handler()` on each entry passing the trigger test. -/
def journal_drain : List String → List RecoveryCall
  | [] => []
  | e :: rest =>
    (if stall_signature e then [RecoveryCall.stopAll] else []) ++ journal_drain rest

/-! ## Concrete inputs used by witnesses and counterexamples -/

/-- Status oracle for the C1 scenario: `data.mount` failed,
`data.automount` inactive. -/
def statusC1 : String → UnitStatus := fun u =>
  if u = "data.mount" then ⟨"failed", "failed"⟩
  else if u = "data.automount" then ⟨"inactive", "dead"⟩
  else ⟨"active", "running"⟩

/-- Status oracle with every automount active but `data.mount` failed. -/
def statusFailedMount : String → UnitStatus := fun u =>
  if u = "data.mount" then ⟨"failed", "failed"⟩
  else ⟨"active", "running"⟩

/-- Status oracle with every unit active. -/
def statusAllActive : String → UnitStatus := fun _ => ⟨"active", "running"⟩

/-- Stop-call outcomes where the stop of `a.mount` raises and every other
stop succeeds. -/
def stopResFailFirst : String → Except String Unit := fun u =>
  if u = "a.mount" then Except.error "DBusError" else Except.ok ()

/-- A kernel journal MESSAGE matching the stall signature. -/
def msgStall : String := "CIFS: VFS: \\\\10.0.0.2\\media has not responded in 180 seconds"

/-- A method-return message, not a device signal. -/
def msgMethodReturn : DMessage :=
  ⟨MessageType.methodReturn, "org.freedesktop.DBus", "/org/freedesktop/DBus", []⟩

/-! ## Helper lemmas -/

theorem restart_phase1_no_stop (σ : String → UnitStatus) (ms : List String) (u : String) :
    ((restart_phase1 σ ms).1).count (UnitOp.stop u) = 0 := by
  induction ms with
  | nil => simp [restart_phase1]
  | cons name rest ih =>
    simp only [restart_phase1, List.count_append, ih]
    by_cases h : (σ (name ++ ".mount")).active_state = "failed" <;>
      simp [h, List.count_cons]

theorem restart_phase2_no_stop (l : List String) (u : String) :
    (restart_phase2 l).count (UnitOp.stop u) = 0 := by
  induction l with
  | nil => simp [restart_phase2]
  | cons name rest ih => simp [restart_phase2, List.count_cons, ih]

theorem restart_phase1_collect (σ : String → UnitStatus) (ms : List String) :
    (restart_phase1 σ ms).2
      = ms.filter (fun n => (σ (n ++ ".automount")).active_state ≠ "active") := by
  induction ms with
  | nil => simp [restart_phase1]
  | cons name rest ih =>
    by_cases h : (σ (name ++ ".automount")).active_state = "active" <;>
      simp [restart_phase1, h, ih, List.filter_cons]

theorem lookupDev_setDev (st : List (String × Bool)) (k id : String) (v : Bool) :
    lookupDev (setDev st k v) id = if k = id then some v else lookupDev st id := by
  induction st with
  | nil => simp [setDev, lookupDev]
  | cons p rest ih =>
    obtain ⟨k1, v1⟩ := p
    by_cases h : k1 = k
    · subst h
      by_cases h2 : k1 = id <;> simp [setDev, lookupDev, h2]
    · by_cases h2 : k1 = id
      · subst h2
        simp [setDev, lookupDev, h, Ne.symm h]
      · simp [setDev, lookupDev, h, h2, ih]

/-! ## Claim theorems -/

/-- C1: with mount list `["data"]`, `data.mount` failed and `data.automount`
inactive, `restart_all_mounts` issues exactly, in order: status(data.mount),
reset_failed(data.mount), status(data.automount), stop(network-online.target),
stop(NetworkManager-wait-online.service), reset_failed(data.automount),
start(data.automount), and nothing else. -/
theorem restart_single_failed_mount_sequence (σ : String → UnitStatus)
    (h1 : (σ "data.mount").active_state = "failed")
    (h2 : (σ "data.automount").active_state = "inactive") :
    restart_all_mounts σ ["data"] =
      [UnitOp.status "data.mount", UnitOp.resetFailed "data.mount",
       UnitOp.status "data.automount",
       UnitOp.stop "network-online.target",
       UnitOp.stop "NetworkManager-wait-online.service",
       UnitOp.resetFailed "data.automount", UnitOp.start "data.automount"] := by
  have hm : ("data" : String) ++ ".mount" = "data.mount" := by decide
  have ha : ("data" : String) ++ ".automount" = "data.automount" := by decide
  have hne : (σ "data.automount").active_state ≠ "active" := by
    rw [h2]; decide
  simp [restart_all_mounts, restart_phase1, restart_phase2, hm, ha, h1, h2, hne]

/-- Witness for C1 at the concrete status oracle `statusC1`. -/
theorem restart_single_failed_mount_sequence_witness :
    (statusC1 "data.mount").active_state = "failed"
    ∧ (statusC1 "data.automount").active_state = "inactive"
    ∧ restart_all_mounts statusC1 ["data"] =
      [UnitOp.status "data.mount", UnitOp.resetFailed "data.mount",
       UnitOp.status "data.automount",
       UnitOp.stop "network-online.target",
       UnitOp.stop "NetworkManager-wait-online.service",
       UnitOp.resetFailed "data.automount", UnitOp.start "data.automount"] :=
  ⟨rfl, rfl, restart_single_failed_mount_sequence statusC1 rfl rfl⟩

/-- C2 counterexample: with mounts `["a", "b"]` and a controller whose stop of
`a.mount` raises, `stop_mounts` never attempts `b.mount` — the loop body has
no exception handler, so the first failure aborts the remaining iterations. -/
theorem stop_mounts_abort_counterexample :
    stop_mounts stopResFailFirst ["a", "b"] = ([UnitOp.stop "a.mount"], some "DBusError")
    ∧ UnitOp.stop "b.mount" ∉ (stop_mounts stopResFailFirst ["a", "b"]).1 := by decide

/-- C2 amended: `stop_mounts` attempts stops strictly in configured order and
aborts at the first stop call that raises: every mount before the first
failure and the failing mount itself are attempted, no later mount is; when
no stop call fails, every configured mount's `.mount` unit is stopped. -/
theorem stop_mounts_aborts_on_first_failure (res : String → Except String Unit) :
    (∀ ms : List String, (∀ n ∈ ms, res (n ++ ".mount") = Except.ok ()) →
      stop_mounts res ms = (ms.map (fun n => UnitOp.stop (n ++ ".mount")), none))
    ∧ (∀ pre : List String, ∀ name : String, ∀ post : List String, ∀ e : String,
        (∀ n ∈ pre, res (n ++ ".mount") = Except.ok ()) →
        res (name ++ ".mount") = Except.error e →
        stop_mounts res (pre ++ name :: post)
          = (pre.map (fun n => UnitOp.stop (n ++ ".mount"))
              ++ [UnitOp.stop (name ++ ".mount")], some e)) := by
  constructor
  · intro ms h
    induction ms with
    | nil => simp [stop_mounts]
    | cons name rest ih =>
      have hn := h name (List.mem_cons_self name rest)
      rw [stop_mounts, hn]
      simp [ih fun n hn2 => h n (List.mem_cons_of_mem name hn2)]
  · intro pre name post e hpre hname
    induction pre with
    | nil => simp [stop_mounts, hname]
    | cons p rest ih =>
      have hp := hpre p (List.mem_cons_self p rest)
      rw [List.cons_append, stop_mounts, hp]
      simp [ih fun n hn2 => hpre n (List.mem_cons_of_mem p hn2)]

/-- Witness for the amended C2 at the concrete controller `stopResFailFirst`:
`b.mount` succeeds, then `a.mount` raises and the loop ends. -/
theorem stop_mounts_aborts_on_first_failure_witness :
    stop_mounts stopResFailFirst ["b", "a"]
      = ([UnitOp.stop "b.mount", UnitOp.stop "a.mount"], some "DBusError") := by
  have h := (stop_mounts_aborts_on_first_failure stopResFailFirst).2 ["b"] "a" [] "DBusError"
    (fun n hn => by cases List.mem_singleton.mp hn; rfl) rfl
  simpa using h

/-- C3 counterexample: a batch of two entries both matching the stall
signature causes two `stop_handler()` invocations, not exactly one per
batch. -/
theorem journal_double_trigger_counterexample :
    stall_signature msgStall = true
    ∧ journal_drain [msgStall, msgStall] = [RecoveryCall.stopAll, RecoveryCall.stopAll]
    ∧ journal_drain [msgStall, msgStall] ≠ [RecoveryCall.stopAll] := by decide

/-- C3 amended: an entry triggers the stop handler iff its message starts
with "CIFS: VFS:" and contains "has not responded" (entries failing either
test never trigger it), and one wake's drain invokes `stop_handler()` once
per matching entry — `k` matching entries in a batch yield `k` invocations,
not one per batch. -/
theorem journal_drain_per_matching_entry (entries : List String) :
    journal_drain entries
      = List.replicate (entries.countP (fun e => stall_signature e)) RecoveryCall.stopAll := by
  induction entries with
  | nil => simp [journal_drain]
  | cons e rest ih =>
    by_cases h : stall_signature e <;>
      simp [journal_drain, h, ih, List.countP_cons, List.replicate_succ]

/-- C4 counterexample: every configured automount is active, yet
`restart_all_mounts` issues a mutating call — `data.mount` is failed, so the
phase-1 loop resets it even though no automount needs a restart. -/
theorem restart_nonidempotent_counterexample :
    (statusFailedMount "data.automount").active_state = "active"
    ∧ UnitOp.resetFailed "data.mount" ∈ restart_all_mounts statusFailedMount ["data"]
    ∧ restart_all_mounts statusFailedMount ["data"]
        = [UnitOp.status "data.mount", UnitOp.resetFailed "data.mount",
           UnitOp.status "data.automount"] := by decide

/-- C4 amended: when every configured automount's fetched active_state is
"active" and additionally no configured `.mount` unit's fetched active_state
is "failed", `restart_all_mounts` performs exactly the two read-only status
checks per mount, in list order, and issues zero mutating unit calls. -/
theorem restart_all_active_reads_only (σ : String → UnitStatus) (ms : List String)
    (hauto : ∀ n ∈ ms, (σ (n ++ ".automount")).active_state = "active")
    (hmount : ∀ n ∈ ms, (σ (n ++ ".mount")).active_state ≠ "failed") :
    restart_all_mounts σ ms
      = ms.flatMap (fun n => [UnitOp.status (n ++ ".mount"), UnitOp.status (n ++ ".automount")]) := by
  have h1 : restart_phase1 σ ms
      = (ms.flatMap (fun n => [UnitOp.status (n ++ ".mount"), UnitOp.status (n ++ ".automount")]),
         []) := by
    induction ms with
    | nil => simp [restart_phase1]
    | cons name rest ih =>
      have hm := hmount name (List.mem_cons_self name rest)
      have ha := hauto name (List.mem_cons_self name rest)
      have ihr := ih (fun n hn => hauto n (List.mem_cons_of_mem name hn))
        (fun n hn => hmount n (List.mem_cons_of_mem name hn))
      simp [restart_phase1, hm, ha, ihr]
  simp [restart_all_mounts, h1]

/-- Witness for the amended C4 at the all-active status oracle. -/
theorem restart_all_active_reads_only_witness :
    restart_all_mounts statusAllActive ["data"]
      = [UnitOp.status "data.mount", UnitOp.status "data.automount"] := by
  have h := restart_all_active_reads_only statusAllActive ["data"]
    (by decide) (by decide)
  simpa using h

/-- C8: `restart_all_mounts` stops `network-online.target` and
`NetworkManager-wait-online.service` exactly once each iff at least one
configured automount's fetched active_state is not "active", and zero times
when all automounts are active — never once per mount. -/
theorem restart_stops_network_targets_once (σ : String → UnitStatus) (ms : List String) :
    ((restart_all_mounts σ ms).count (UnitOp.stop "network-online.target")
      = if ∃ n ∈ ms, (σ (n ++ ".automount")).active_state ≠ "active" then 1 else 0)
    ∧ ((restart_all_mounts σ ms).count (UnitOp.stop "NetworkManager-wait-online.service")
      = if ∃ n ∈ ms, (σ (n ++ ".automount")).active_state ≠ "active" then 1 else 0) := by
  have hcases : (restart_phase1 σ ms).2 = [] ↔
      ¬ ∃ n ∈ ms, (σ (n ++ ".automount")).active_state ≠ "active" := by
    rw [restart_phase1_collect]
    simp [List.filter_eq_nil_iff]
  by_cases hex : ∃ n ∈ ms, (σ (n ++ ".automount")).active_state ≠ "active"
  · have hne : (restart_phase1 σ ms).2 ≠ [] := fun h => (hcases.mp h) hex
    constructor <;>
      simp [restart_all_mounts, hne, hex, List.count_append, List.count_cons,
        restart_phase1_no_stop, restart_phase2_no_stop]
  · have he : (restart_phase1 σ ms).2 = [] := hcases.mpr hex
    constructor <;>
      simp [restart_all_mounts, he, hex, List.count_append, restart_phase1_no_stop]

/-- C5: over every delivered signal sequence, the number of `stop_handler()`
invocations made by `global_state_changed` equals the number of to-offline
edges of the derived boolean state (an observation whose derived value
differs from the recorded one and is offline); re-observing an
equivalently-classified state is recorded-value-equal and so triggers
nothing, hence at most one stop per actual transition to offline. -/
theorem global_stop_edge_count (st : Option Bool) (sigs : List Nat) :
    ((run_global st sigs).2).count RecoveryCall.stopAll
      = fall_edges st (global_derived sigs) := by
  induction sigs generalizing st with
  | nil => simp [run_global, global_derived, fall_edges]
  | cons s rest ih =>
    cases h : NetworkManagerState.ofNat? s with
    | none => simp [run_global, global_state_changed, global_derived, h, ih]
    | some ns =>
      cases hd : global_online ns with
      | false =>
        by_cases hst : st = some false
        · simp [run_global, global_state_changed, global_derived, fall_edges, h, hd, hst, ih]
        · simp [run_global, global_state_changed, global_derived, fall_edges, h, hd, hst, ih,
            List.count_append, List.count_cons, Nat.add_comm]
      | true =>
        by_cases hst : st = some true
        · simp [run_global, global_state_changed, global_derived, fall_edges, h, hd, hst, ih]
        · simp [run_global, global_state_changed, global_derived, fall_edges, h, hd, hst, ih,
            List.count_append]

/-- C6: over every delivered message sequence, the number of
`restart_handler()` tasks scheduled for a given device id equals the number
of to-online edges of that device's derived boolean sequence — a
previously-unseen device first observed online counts as an edge, and a
repeated signal with an unchanged derived value schedules nothing. -/
theorem device_restart_edge_count (st : List (String × Bool)) (msgs : List DMessage)
    (id : String) :
    ((run_devices st msgs).2).count id
      = rise_edges (lookupDev st id) (device_derived id msgs) := by
  induction msgs generalizing st with
  | nil => simp [run_devices, device_derived, rise_edges]
  | cons m rest ih =>
    by_cases hsig : is_device_signal m
    · cases hd : device_online m with
      | false =>
        by_cases hch : lookupDev st (get_device_id m) = some false
        · by_cases hid : get_device_id m = id
          · subst hid
            simp [run_devices, device_state_changed, device_derived, rise_edges,
              hsig, hd, hch, ih]
          · simp [run_devices, device_state_changed, device_derived,
              hsig, hd, hch, hid, ih]
        · by_cases hid : get_device_id m = id
          · subst hid
            simp [run_devices, device_state_changed, device_derived, rise_edges,
              hsig, hd, hch, ih, lookupDev_setDev]
          · simp [run_devices, device_state_changed, device_derived,
              hsig, hd, hch, hid, ih, lookupDev_setDev]
      | true =>
        by_cases hch : lookupDev st (get_device_id m) = some true
        · by_cases hid : get_device_id m = id
          · subst hid
            simp [run_devices, device_state_changed, device_derived, rise_edges,
              hsig, hd, hch, ih]
          · simp [run_devices, device_state_changed, device_derived,
              hsig, hd, hch, hid, ih]
        · by_cases hid : get_device_id m = id
          · subst hid
            simp [run_devices, device_state_changed, device_derived, rise_edges,
              hsig, hd, hch, ih, lookupDev_setDev, List.count_cons, Nat.add_comm]
          · simp [run_devices, device_state_changed, device_derived,
              hsig, hd, hch, hid, ih, lookupDev_setDev, List.count_cons]
    · simp [run_devices, device_state_changed, device_derived, hsig, ih]

/-- C7 counterexample: for the unknown enumerated value 5,
`NetworkManagerState(state)` raises `ValueError`; the handler has no
exception handling, so the invocation ends in the uncaught error rather
than reporting it and continuing — it is not handled inside the handler. -/
theorem global_unknown_state_counterexample :
    global_state_changed (some true) 5 = Except.error () := rfl

/-- C7 amended: on a signal whose integer payload is not a known
`NetworkManagerState` value, the enum conversion raises and the error
escapes the handler invocation uncaught (it is not reported-and-swallowed
inside the handler); the exception occurs before any field update, so the
previously recorded global connectivity state is left unchanged, no stop is
invoked, and later signal deliveries are unaffected. -/
theorem global_unknown_state_raises (st : Option Bool) (s : Nat) (rest : List Nat)
    (h : NetworkManagerState.ofNat? s = none) :
    global_state_changed st s = Except.error ()
    ∧ run_global st (s :: rest) = run_global st rest := by
  refine ⟨?_, ?_⟩ <;> simp [run_global, global_state_changed, h]

/-- Witness for the amended C7 at the unknown value 5. -/
theorem global_unknown_state_raises_witness :
    global_state_changed none 5 = Except.error ()
    ∧ run_global none [5, 20] = run_global none [20] :=
  global_unknown_state_raises none 5 [20] rfl

/-- C9: `device_state_changed` returns `False` (not consumed) for every
message, and on any message that is not a `StateChanged` signal of the
network-device interface it returns immediately: the `device_list` map is
unchanged and no recovery task is scheduled. -/
theorem device_handler_not_consumed (st : List (String × Bool)) (msg : DMessage) :
    (device_state_changed st msg).2.2 = false
    ∧ (¬ is_device_signal msg → device_state_changed st msg = (st, none, false)) := by
  constructor
  · by_cases h : is_device_signal msg
    · simp only [device_state_changed, if_pos h]
      split <;> rfl
    · simp [device_state_changed, h]
  · intro h
    simp [device_state_changed, h]

/-- Witness for C9 at a concrete method-return message. -/
theorem device_handler_not_consumed_witness :
    (device_state_changed [] msgMethodReturn).2.2 = false
    ∧ device_state_changed [] msgMethodReturn = ([], none, false) :=
  ⟨(device_handler_not_consumed [] msgMethodReturn).1,
   (device_handler_not_consumed [] msgMethodReturn).2 (by decide)⟩

/-- C10: `global_state_changed` never invokes the restart handler on any
signal sequence, and a derived transition to online just records the new
state and performs no recovery call at all. -/
theorem global_never_restarts (st : Option Bool) (sigs : List Nat) :
    RecoveryCall.restartAll ∉ (run_global st sigs).2
    ∧ (∀ s ns, NetworkManagerState.ofNat? s = some ns →
        global_online ns = true → st ≠ some true →
        global_state_changed st s = Except.ok (some true, [])) := by
  constructor
  · induction sigs generalizing st with
    | nil => simp [run_global]
    | cons s rest ih =>
      cases h : NetworkManagerState.ofNat? s with
      | none => simpa [run_global, global_state_changed, h] using ih st
      | some ns =>
        cases hd : global_online ns with
        | false =>
          by_cases hst : st = some false
          · simpa [run_global, global_state_changed, h, hd, hst] using ih st
          · simpa [run_global, global_state_changed, h, hd, hst,
              List.mem_append] using ih (some false)
        | true =>
          by_cases hst : st = some true
          · simpa [run_global, global_state_changed, h, hd, hst] using ih st
          · simpa [run_global, global_state_changed, h, hd, hst] using ih (some true)
  · intro s ns h hc hne
    simp [global_state_changed, h, hc, hne]

/-- Witness for C10: a run containing an online signal (GLOBAL = 70), and an
offline-to-online transition recording the state with no recovery call. -/
theorem global_never_restarts_witness :
    RecoveryCall.restartAll ∉ (run_global none [70, 20]).2
    ∧ global_state_changed (some false) 70 = Except.ok (some true, []) :=
  ⟨(global_never_restarts none [70, 20]).1,
   (global_never_restarts (some false) [] ).2 70 NetworkManagerState.GLOBAL rfl rfl
     (by decide)⟩

end NMM
